import Mathlib

/-!
Verification of the ESP32 relay-controller firmware core
(repository chandud1124/iotsmartclass, files src/esp32/improved_esp32.cpp
and src/esp32/esp32debugtest.cpp) against its natural-language
specification.

The embedding below is a shallow model of the firmware's logical core:

* time is the `millis()` counter, modelled as a monotone `Nat` (the code's
  `now - last >= interval` idiom on `unsigned long` coincides with `Nat`
  truncated subtraction for monotone clocks);
* hardware side effects (`digitalWrite` on relay pins, `ws.sendTXT`,
  NVS writes) are recorded in observation logs inside the context record,
  so that counting broadcasts / saves / relay writes is possible;
* `digitalRead` of manual-input pins is an environment parameter
  (a function from the pin number to the sampled level);
* the FreeRTOS queue created with `xQueueCreate(MAX_COMMAND_QUEUE, ...)`
  is a bounded FIFO list: `xQueueSend(q, cmd, 0)` appends when fewer than
  `MAX_COMMAND_QUEUE` elements are present and otherwise fails immediately
  (never blocking, timeout 0), `xQueueReceive(q, cmd, 0)` pops the head;
* JSON documents are records of optional fields mirroring the keys the
  code actually reads; the HMAC signature attached to `state_update`
  (external mbedtls call) is out of the modelled core, as are serial logs,
  LED writes and `pinMode` calls, none of which the claims mention.
-/

namespace IotFirmware

/-- STATE_DEBOUNCE_MS from improved_esp32.cpp line 43: debounce window for
coalescing rapid local state changes into one state_update. -/
def STATE_DEBOUNCE_MS : Nat := 200

/-- MANUAL_DEBOUNCE_MS from improved_esp32.cpp line 44: manual input
debounce window. -/
def MANUAL_DEBOUNCE_MS : Nat := 30

/-- MAX_COMMAND_QUEUE from improved_esp32.cpp line 47: capacity of the
FreeRTOS command queue. -/
def MAX_COMMAND_QUEUE : Nat := 16

/-- COMMAND_PROCESS_INTERVAL from improved_esp32.cpp line 48. -/
def COMMAND_PROCESS_INTERVAL : Nat := 100

/-- HEARTBEAT_MS from improved_esp32.cpp line 34. -/
def HEARTBEAT_MS : Nat := 30000

/-- MAX_SWITCHES from config.h line 20. -/
def MAX_SWITCHES : Nat := 8

/-- CFG_SAVE_MIN_INTERVAL_MS from esp32debugtest.cpp line 58: minimum
interval between NVS configuration saves. -/
def CFG_SAVE_MIN_INTERVAL_MS : Nat := 5000

/-- Arduino LOW level as returned by digitalRead. -/
def LOW_LEVEL : Int := 0

/-- Arduino HIGH level as returned by digitalRead. -/
def HIGH_LEVEL : Int := 1

/-- struct SwitchState (improved_esp32.cpp lines 81-95 and
esp32debugtest.cpp lines 68-82; both declare identical fields).
`lastManualChangeMs` is a millis timestamp, modelled as Nat. -/
structure SwitchState where
  gpio : Int
  state : Bool
  name : String := ""
  manualGpio : Int := -1
  manualEnabled : Bool := false
  manualActiveLow : Bool := true
  manualMomentary : Bool := false
  lastManualLevel : Int := -1
  lastManualChangeMs : Nat := 0
  stableManualLevel : Int := -1
  lastManualActive : Bool := false
  defaultState : Bool := false
  manualOverride : Bool := false
deriving Repr, DecidableEq

/-- struct Command (improved_esp32.cpp lines 98-103). -/
structure Command where
  gpio : Int
  state : Bool
  valid : Bool
  timestamp : Nat
deriving Repr, DecidableEq

/-- struct GpioSeq (improved_esp32.cpp line 106): one entry of the
per-GPIO last-applied-sequence tracker. -/
structure GpioSeq where
  gpio : Int
  seq : Int
deriving Repr, DecidableEq

/-- enum ConnState (improved_esp32.cpp line 67). -/
inductive ConnState where
  | WIFI_DISCONNECTED
  | WIFI_ONLY
  | BACKEND_CONNECTED
deriving Repr, DecidableEq

/-- The nine per-switch fields written to NVS by saveConfigToNVS
(improved_esp32.cpp lines 357-367; identical in esp32debugtest.cpp
lines 275-285). -/
structure PersistedSwitch where
  gpio : Int
  state : Bool
  defaultState : Bool
  manualEnabled : Bool
  manualGpio : Int
  manualActiveLow : Bool
  manualMomentary : Bool
  name : String
  manualOverride : Bool
deriving Repr, DecidableEq

/-- The durable NVS snapshot: the stored `count` key plus the per-index
switch records (improved_esp32.cpp lines 349-374). -/
structure Snapshot where
  count : Nat
  entries : List PersistedSwitch
deriving Repr, DecidableEq

/-- Outbound WebSocket messages the modelled core can transmit via
ws.sendTXT. The HMAC `sig` field of state_update is computed by an
external mbedtls call and is not part of the modelled payload. -/
inductive OutMsg where
  | stateUpdate (seq ts : Nat) (switches : List (Int × Bool × Bool))
  | heartbeat (uptime : Nat) (offlineMode : Bool)
deriving Repr, DecidableEq

/-- Is an outbound message a state_update broadcast. -/
def OutMsg.isStateUpdate : OutMsg → Bool
  | .stateUpdate _ _ _ => true
  | _ => false

/-- Number of state_update broadcasts in a transmission log. -/
def countStateUpdates (ms : List OutMsg) : Nat :=
  (ms.filter OutMsg.isStateUpdate).length

/-- The firmware's global mutable state (the file-scope globals of
improved_esp32.cpp lines 61-109 / esp32debugtest.cpp lines 38-91),
plus observation logs for the externally visible side effects:
`sentMessages` records every ws.sendTXT, `savedSnapshots` every
saveConfigToNVS, `relayWrites` every digitalWrite on a relay pin,
and `droppedCommands` every "Command queue full" report. -/
structure Ctx where
  switchesLocal : List SwitchState := []
  lastSeqs : List GpioSeq := []
  cmdQueue : List Command := []
  connState : ConnState := .WIFI_DISCONNECTED
  identified : Bool := false
  isOfflineMode : Bool := true
  pendingState : Bool := false
  lastStateSent : Nat := 0
  lastHeartbeat : Nat := 0
  lastCommandProcess : Nat := 0
  cfgDirty : Bool := false
  lastCfgSave : Nat := 0
  wsConnected : Bool := false
  sentMessages : List OutMsg := []
  savedSnapshots : List Snapshot := []
  relayWrites : List (Int × Bool) := []
  droppedCommands : Nat := 0
deriving Repr, DecidableEq

/-- The boot-time context. -/
def initCtx : Ctx := {}

/-- sendJson (improved_esp32.cpp lines 132-137): if the WebSocket is not
connected the message is silently discarded (nothing is transmitted and
nothing is queued); otherwise it is transmitted. -/
def sendJson (c : Ctx) (m : OutMsg) : Ctx :=
  if c.wsConnected then { c with sentMessages := c.sentMessages ++ [m] } else c

/-- sendStateUpdate (improved_esp32.cpp lines 170-197). A non-forced call
inside the STATE_DEBOUNCE_MS window only sets the pending flag; otherwise
the pending flag is cleared, the send timestamp updated, and (when the
link is up) a state_update with the registry contents is transmitted. -/
def sendStateUpdate (c : Ctx) (force : Bool) (now : Nat) : Ctx :=
  if force = false ∧ now - c.lastStateSent < STATE_DEBOUNCE_MS then
    { c with pendingState := true }
  else
    let c := { c with pendingState := false, lastStateSent := now }
    sendJson c (.stateUpdate now now
      (c.switchesLocal.map fun sw => (sw.gpio, sw.state, sw.manualOverride)))

/-- sendHeartbeat (improved_esp32.cpp lines 199-213): rate limited by
HEARTBEAT_MS; transmits only while the WebSocket is connected. -/
def sendHeartbeat (c : Ctx) (now : Nat) : Ctx :=
  if now - c.lastHeartbeat < HEARTBEAT_MS then c
  else
    let c := { c with lastHeartbeat := now }
    if c.wsConnected then
      sendJson c (.heartbeat (now / 1000) c.isOfflineMode)
    else c

/-- getLastSeq (improved_esp32.cpp lines 215-220): last applied sequence
for a GPIO, `-1` when the GPIO has no entry. This helper is defined in
both firmware variants but is never called anywhere. -/
def getLastSeq (l : List GpioSeq) (gpio : Int) : Int :=
  match l with
  | [] => -1
  | p :: rest => if p.gpio = gpio then p.seq else getLastSeq rest gpio

/-- setLastSeq (improved_esp32.cpp lines 222-230): record a sequence for
a GPIO. Also never called anywhere in either variant. -/
def setLastSeq (l : List GpioSeq) (gpio : Int) (seq : Int) : List GpioSeq :=
  match l with
  | [] => [{ gpio := gpio, seq := seq }]
  | p :: rest =>
    if p.gpio = gpio then { p with seq := seq } :: rest
    else p :: setLastSeq rest gpio seq

/-- queueSwitchCommand (improved_esp32.cpp lines 232-244):
xQueueSend with timeout 0 — appends to the bounded FIFO when fewer than
MAX_COMMAND_QUEUE commands are queued, otherwise drops the incoming
command immediately (never blocking) and reports the drop. -/
def queueSwitchCommand (c : Ctx) (gpio : Int) (state : Bool) (now : Nat) : Ctx :=
  let cmd : Command := { gpio := gpio, state := state, valid := true, timestamp := now }
  if c.cmdQueue.length < MAX_COMMAND_QUEUE then
    { c with cmdQueue := c.cmdQueue ++ [cmd] }
  else
    { c with droppedCommands := c.droppedCommands + 1 }

/-- Enqueue a list of (gpio, state) commands in order, as a burst of
switch_command messages would. -/
def enqueueAll (c : Ctx) (cmds : List (Int × Bool)) (now : Nat) : Ctx :=
  cmds.foldl (fun c gs => queueSwitchCommand c gs.1 gs.2 now) c

/-- Mutate the first registry entry whose gpio matches, exactly as the
for-loop of applySwitchState does (improved_esp32.cpp lines 260-274):
sets `state` and `defaultState` and returns the updated list, or `none`
when no entry matches (unknown GPIO). -/
def applyToFirst (l : List SwitchState) (gpio : Int) (state : Bool) :
    Option (List SwitchState) :=
  match l with
  | [] => none
  | sw :: rest =>
    if sw.gpio = gpio then
      some ({ sw with state := state, defaultState := state } :: rest)
    else
      (applyToFirst rest gpio state).map (sw :: ·)

/-- saveConfigToNVS (improved_esp32.cpp lines 349-374): the snapshot
written for a registry — `count = min(size, MAX_SWITCHES)` and the nine
persisted fields of the first `count` switches. -/
def persistOf (sw : SwitchState) : PersistedSwitch :=
  { gpio := sw.gpio, state := sw.state, defaultState := sw.defaultState,
    manualEnabled := sw.manualEnabled, manualGpio := sw.manualGpio,
    manualActiveLow := sw.manualActiveLow, manualMomentary := sw.manualMomentary,
    name := sw.name, manualOverride := sw.manualOverride }

/-- The snapshot saveConfigToNVS writes for a given registry. -/
def snapshotOf (switches : List SwitchState) : Snapshot :=
  let n := min switches.length MAX_SWITCHES
  { count := n, entries := (switches.take n).map persistOf }

/-- saveConfigToNVS as a context step: overwrites the durable snapshot
(recorded by appending to the save log). -/
def saveConfigToNVS (c : Ctx) : Ctx :=
  { c with savedSnapshots := c.savedSnapshots ++ [snapshotOf c.switchesLocal] }

/-- applySwitchState, improved_esp32.cpp lines 259-277: on a known GPIO,
set the logical state, drive the relay, persist immediately via
saveConfigToNVS, and broadcast immediately via sendStateUpdate(true);
unknown GPIOs are reported and ignored. -/
def applySwitchState (c : Ctx) (gpio : Int) (state : Bool) (now : Nat) :
    Ctx × Bool :=
  match applyToFirst c.switchesLocal gpio state with
  | some l =>
    let c := { c with switchesLocal := l,
                      relayWrites := c.relayWrites ++ [(gpio, state)] }
    let c := saveConfigToNVS c
    (sendStateUpdate c true now, true)
  | none => (c, false)

/-- applySwitchState, esp32debugtest.cpp lines 248-263: same as the
improved variant except that instead of saving immediately it only marks
the configuration dirty (`cfgDirty = true`) for the rate-limited
maybeSaveConfig gateway. -/
def applySwitchStateDT (c : Ctx) (gpio : Int) (state : Bool) (now : Nat) :
    Ctx × Bool :=
  match applyToFirst c.switchesLocal gpio state with
  | some l =>
    let c := { c with switchesLocal := l,
                      relayWrites := c.relayWrites ++ [(gpio, state)],
                      cfgDirty := true }
    (sendStateUpdate c true now, true)
  | none => (c, false)

/-- maybeSaveConfig (esp32debugtest.cpp lines 264-270): flush the
snapshot only when dirty and at least CFG_SAVE_MIN_INTERVAL_MS after the
previous flush. -/
def maybeSaveConfig (c : Ctx) (now : Nat) : Ctx :=
  if c.cfgDirty = false then c
  else if now - c.lastCfgSave < CFG_SAVE_MIN_INTERVAL_MS then c
  else
    let c := saveConfigToNVS c
    { c with lastCfgSave := now, cfgDirty := false }

/-- A run of the persistence gateway: at each event time the loop may
mark the configuration dirty (a channel-state mutation, as
applySwitchStateDT does) and then calls maybeSaveConfig, as the
esp32debugtest.cpp main loop does each iteration (line 591). -/
def runGateway (c : Ctx) (events : List (Nat × Bool)) : Ctx :=
  events.foldl
    (fun c e =>
      maybeSaveConfig (if e.2 then { c with cfgDirty := true } else c) e.1)
    c

/-- processCommandQueue (improved_esp32.cpp lines 246-257): paced by
COMMAND_PROCESS_INTERVAL; dequeues the head command (xQueueReceive) and
applies it if valid. -/
def processCommandQueue (c : Ctx) (now : Nat) : Ctx :=
  if now - c.lastCommandProcess < COMMAND_PROCESS_INTERVAL then c
  else
    let c := { c with lastCommandProcess := now }
    match c.cmdQueue with
    | [] => c
    | cmd :: rest =>
      let c := { c with cmdQueue := rest }
      if cmd.valid then (applySwitchState c cmd.gpio cmd.state now).1 else c

/-- One element of the `switches` JSON array of an identified /
config_update payload, with exactly the optional fields
loadConfigFromJsonArray reads (improved_esp32.cpp lines 279-346). -/
structure JsonSwitch where
  relayGpio : Option Int := none
  gpio : Option Int := none
  state : Option Bool := none
  name : Option String := none
  manualSwitchEnabled : Option Bool := none
  manualSwitchGpio : Option Int := none
  manualMode : Option String := none
  manualActiveLow : Option Bool := none
deriving Repr, DecidableEq

/-- GPIO resolution of improved_esp32.cpp line 282: relayGpio if it is an
int, else gpio if it is an int, else -1. -/
def jsonGpio (o : JsonSwitch) : Int :=
  match o.relayGpio with
  | some g => g
  | none =>
    match o.gpio with
    | some g => g
    | none => -1

/-- Build one SwitchState from a JSON object, exactly as the loop body of
loadConfigFromJsonArray does for a valid object (improved_esp32.cpp
lines 284-331). `inputRead` is digitalRead on the manual input pin. -/
def switchOfJson (o : JsonSwitch) (inputRead : Int → Int) : SwitchState :=
  let desiredState := o.state.getD false
  let sw : SwitchState :=
    { gpio := jsonGpio o, state := desiredState, defaultState := desiredState,
      name := o.name.getD "", manualOverride := false }
  let sw :=
    if o.manualSwitchEnabled = some true ∧ o.manualSwitchGpio ≠ none then
      { sw with manualEnabled := true,
                manualGpio := o.manualSwitchGpio.getD (-1),
                manualMomentary :=
                  match o.manualMode with
                  | some mm => mm = "momentary"
                  | none => sw.manualMomentary,
                manualActiveLow := o.manualActiveLow.getD sw.manualActiveLow }
    else sw
  if sw.manualEnabled = true ∧ 0 ≤ sw.manualGpio then
    let lvl := inputRead sw.manualGpio
    { sw with lastManualLevel := lvl, stableManualLevel := lvl,
              lastManualActive :=
                if sw.manualActiveLow then lvl == LOW_LEVEL else lvl == HIGH_LEVEL }
  else sw

/-- The registry loadConfigFromJsonArray builds: objects whose resolved
GPIO is negative are skipped (`continue`), the rest are pushed in order.
No bound is placed on the number of switches. -/
def loadSwitchesFromJsonArray (arr : List JsonSwitch) (inputRead : Int → Int) :
    List SwitchState :=
  (arr.filter fun o => 0 ≤ jsonGpio o).map (switchOfJson · inputRead)

/-- loadConfigFromJsonArray as a context step (improved_esp32.cpp lines
279-346): replaces the registry, drives every loaded relay to its state,
saves the configuration to NVS, and force-broadcasts a state_update. -/
def loadConfigFromJsonArrayC (c : Ctx) (arr : List JsonSwitch)
    (inputRead : Int → Int) (now : Nat) : Ctx :=
  let sws := loadSwitchesFromJsonArray arr inputRead
  let c := { c with switchesLocal := sws,
                    relayWrites :=
                      c.relayWrites ++ sws.map fun sw => (sw.gpio, sw.state) }
  let c := saveConfigToNVS c
  sendStateUpdate c true now

/-- The default record loadConfigFromNVS reads when index `i` has no
stored keys (the per-key defaults of improved_esp32.cpp lines 392-402). -/
def nvsDefaultAt (i : Nat) : PersistedSwitch :=
  { gpio := -1, state := false, defaultState := false, manualEnabled := false,
    manualGpio := -1, manualActiveLow := true, manualMomentary := false,
    name := "Switch " ++ toString (i + 1), manualOverride := false }

/-- Rebuild one SwitchState from its persisted record, as the load loop
does (improved_esp32.cpp lines 391-423): persisted fields restored, then
the manual-input runtime fields re-initialised from digitalRead. -/
def switchOfPersisted (p : PersistedSwitch) (inputRead : Int → Int) : SwitchState :=
  let sw : SwitchState :=
    { gpio := p.gpio, state := p.state, name := p.name,
      manualGpio := p.manualGpio, manualEnabled := p.manualEnabled,
      manualActiveLow := p.manualActiveLow, manualMomentary := p.manualMomentary,
      defaultState := p.defaultState, manualOverride := p.manualOverride }
  if sw.manualEnabled = true ∧ 0 ≤ sw.manualGpio then
    let lvl := inputRead sw.manualGpio
    { sw with lastManualLevel := lvl, stableManualLevel := lvl,
              lastManualActive :=
                if sw.manualActiveLow then lvl == LOW_LEVEL else lvl == HIGH_LEVEL }
  else sw

/-- loadConfigFromNVS (improved_esp32.cpp lines 377-431): `none` when the
stored count is 0 or exceeds MAX_SWITCHES (registry left untouched);
otherwise the registry rebuilt from the first `count` indices, skipping
indices whose stored gpio is negative. -/
def loadConfigFromNVS (snap : Snapshot) (inputRead : Int → Int) :
    Option (List SwitchState) :=
  if snap.count = 0 ∨ MAX_SWITCHES < snap.count then none
  else
    some ((((List.range snap.count).map fun i => snap.entries.getD i (nvsDefaultAt i)).filter
        fun p => 0 ≤ p.gpio).map (switchOfPersisted · inputRead))

/-- The fields of a switch_command message the handler reads
(improved_esp32.cpp lines 484-494). The parsed `seq` is kept in the
record although the handler only logs it. -/
structure SwitchCommandMsg where
  relayGpio : Option Int := none
  gpio : Option Int := none
  state : Option Bool := none
  seq : Option Int := none
deriving Repr, DecidableEq

/-- GPIO resolution of the switch_command handler (line 485). -/
def cmdGpio (m : SwitchCommandMsg) : Int :=
  match m.relayGpio with
  | some g => g
  | none =>
    match m.gpio with
    | some g => g
    | none => -1

/-- The switch_command branch of onWsEvent (improved_esp32.cpp lines
484-494, identical in esp32debugtest.cpp lines 373-381): parse gpio,
state and seq, then queue the command. The parsed seq is only printed;
getLastSeq / setLastSeq are never consulted. -/
def handleSwitchCommand (c : Ctx) (m : SwitchCommandMsg) (now : Nat) : Ctx :=
  queueSwitchCommand c (cmdGpio m) (m.state.getD false) now

/-- The `identified` branch of onWsEvent (improved_esp32.cpp lines
454-467): mark the session identified, clear the per-GPIO sequence
tracker, and load the configuration payload when present. -/
def onWsIdentified (c : Ctx) (switches : Option (List JsonSwitch))
    (inputRead : Int → Int) (now : Nat) : Ctx :=
  let c := { c with identified := true, isOfflineMode := false, lastSeqs := [] }
  match switches with
  | some arr => loadConfigFromJsonArrayC c arr inputRead now
  | none => c

/-- The WStype_DISCONNECTED branch of onWsEvent in esp32debugtest.cpp
(lines 412-420): drop the session (still WiFi-linked), mark the
configuration dirty and give the rate-limited gateway a chance to flush. -/
def onWsDisconnectedDT (c : Ctx) (now : Nat) : Ctx :=
  let c := { c with identified := false, isOfflineMode := true,
                    connState := .WIFI_ONLY, cfgDirty := true }
  maybeSaveConfig c now

/-- The polarity mapping of improved_esp32.cpp line 624:
active is raw == LOW for active-low inputs and raw == HIGH otherwise. -/
def manualActiveOf (activeLow : Bool) (rawLevel : Int) : Bool :=
  if activeLow then rawLevel == LOW_LEVEL else rawLevel == HIGH_LEVEL

/-- The loop body of handleManualSwitches for one switch
(improved_esp32.cpp lines 605-644, identical in esp32debugtest.cpp lines
479-505). Returns the updated switch, the command queued for it (if
any), and whether a debounced stable transition was committed this
sample. Disabled or pin-less switches are skipped (`continue`). -/
def manualStep (sw : SwitchState) (rawLevel : Int) (now : Nat) :
    SwitchState × Option (Int × Bool) × Bool :=
  if sw.manualEnabled = false ∨ sw.manualGpio < 0 then (sw, none, false)
  else
    let sw1 :=
      if rawLevel ≠ sw.lastManualLevel then
        { sw with lastManualLevel := rawLevel, lastManualChangeMs := now }
      else sw
    if rawLevel ≠ sw1.stableManualLevel ∧
        MANUAL_DEBOUNCE_MS ≤ now - sw1.lastManualChangeMs then
      let sw2 := { sw1 with stableManualLevel := rawLevel }
      let active : Bool := manualActiveOf sw2.manualActiveLow rawLevel
      if sw2.manualMomentary then
        if active && !sw2.lastManualActive then
          ({ sw2 with manualOverride := true, lastManualActive := active },
            some (sw2.gpio, !sw2.state), true)
        else ({ sw2 with lastManualActive := active }, none, true)
      else
        if active != sw2.state then
          ({ sw2 with manualOverride := true, lastManualActive := active },
            some (sw2.gpio, active), true)
        else ({ sw2 with lastManualActive := active }, none, true)
    else (sw1, none, false)

/-- Run the per-switch debounce over a list of timed raw samples,
collecting the queued commands and counting the committed stable
transitions. -/
def manualRun (sw : SwitchState) :
    List (Nat × Int) → SwitchState × List (Int × Bool) × Nat
  | [] => (sw, [], 0)
  | (t, r) :: rest =>
    let s := manualStep sw r t
    let xs := manualRun s.1 rest
    (xs.1, s.2.1.toList ++ xs.2.1, (if s.2.2 then 1 else 0) + xs.2.2)

/-- A trace of raw samples is a burst when every sample either flips the
raw level (restarting the debounce window) or arrives while the window
of the most recent flip is still open — i.e. consecutive raw-level
changes arrive faster than MANUAL_DEBOUNCE_MS apart. -/
def isBurstTrace (sw : SwitchState) : List (Nat × Int) → Bool
  | [] => true
  | (t, r) :: rest =>
    (decide (r ≠ sw.lastManualLevel) ||
      decide (t - sw.lastManualChangeMs < MANUAL_DEBOUNCE_MS)) &&
      isBurstTrace (manualStep sw r t).1 rest

/-! ### Concrete scenarios used to settle claims against the code -/

/-- A registry with one channel on GPIO 4, currently ON. -/
def sw4on : SwitchState := { gpio := 4, state := true }

/-- Context for the staleness scenario: GPIO 4 is ON and the sequence
tracker records 10 as the last applied sequence for GPIO 4 (the value a
working staleness filter would have recorded after applying seq 10). -/
def staleCtx : Ctx :=
  { switchesLocal := [sw4on], lastSeqs := [{ gpio := 4, seq := 10 }],
    wsConnected := true }

/-- The context after a switch_command for GPIO 4 with state OFF and the
stale sequence number 5 arrives and the queue is drained. -/
def staleResult : Ctx :=
  processCommandQueue
    (handleSwitchCommand staleCtx
      { gpio := some 4, state := some false, seq := some 5 } 100) 200

/-- Context right after the WebSocket connects, before the identify /
identified handshake completes (the state WStype_CONNECTED leaves behind:
connected link, `identified == false`). -/
def preIdentifyCtx : Ctx :=
  { wsConnected := true, identified := false, isOfflineMode := false,
    connState := .BACKEND_CONNECTED }

/-- A connected context with one channel on GPIO 4, currently OFF. -/
def rapidCtx : Ctx :=
  { switchesLocal := [{ gpio := 4, state := false }], wsConnected := true }

/-- rapidCtx after applying the command (4, ON) twice in rapid
succession, at times 1000 and 1001. -/
def rapidTwice : Ctx :=
  (applySwitchState (applySwitchState rapidCtx 4 true 1000).1 4 true 1001).1

/-- rapidCtx after applying (4, ON) at time 1000 and (4, OFF) at 1001
(improved_esp32.cpp variant, which saves to NVS on every apply). -/
def rapidToggle : Ctx :=
  (applySwitchState (applySwitchState rapidCtx 4 true 1000).1 4 false 1001).1

/-- A registry of nine channels (GPIOs 0..8), one more than MAX_SWITCHES. -/
def reg9 : List SwitchState :=
  (List.range 9).map fun i => { gpio := (i : Int), state := false }

/-- C1: the spec claims a remote command whose `seq` is at most the last
applied sequence recorded for the channel is silently discarded with no
observable effect. The code never consults the tracker: getLastSeq /
setLastSeq are defined but never called, and the switch_command handler
queues every command after merely logging `seq`. Evaluating the pipeline
at the failing input: the tracker records 10 for GPIO 4, a command with
seq 5 ≤ 10 arrives, and it is nevertheless applied — the channel state
flips to OFF, the relay is driven, a state_update broadcast goes out,
and the tracker is left untouched. -/
theorem c1_stale_command_applied :
    getLastSeq staleCtx.lastSeqs 4 = 10 ∧
    (5 : Int) ≤ getLastSeq staleCtx.lastSeqs 4 ∧
    staleResult.switchesLocal.map SwitchState.state = [false] ∧
    staleResult.relayWrites = [((4 : Int), false)] ∧
    countStateUpdates staleResult.sentMessages = 1 ∧
    staleResult.lastSeqs = staleCtx.lastSeqs := by
  decide

/-- C2 counterexample: with the WebSocket link connected but the
identify/identified handshake not completed (`identified = false`, the
state the code is in right after WStype_CONNECTED), a due heartbeat is
transmitted — outbound traffic is not a no-op before session
establishment, refuting the claim as stated. -/
theorem c2_heartbeat_before_identified :
    preIdentifyCtx.identified = false ∧
    (sendHeartbeat preIdentifyCtx 30000).sentMessages =
      [OutMsg.heartbeat 30 false] := by
  decide

/-- C3 counterexample: two applications of the same command (GPIO 4, ON)
one time unit apart — far inside the STATE_DEBOUNCE_MS = 200 window —
produce two state_update broadcasts, not one: applySwitchState calls
sendStateUpdate(true), and force bypasses the debounce window entirely,
so command-triggered broadcasts are not debounced or coalesced. -/
theorem c3_two_applies_two_broadcasts :
    1001 - 1000 < STATE_DEBOUNCE_MS ∧
    countStateUpdates rapidTwice.sentMessages = 2 := by
  decide

/-- C4 counterexample: in improved_esp32.cpp, applySwitchState calls
saveConfigToNVS directly on every applied command, so two channel-state
mutations one time unit apart produce two durable saves — far more often
than the CFG_SAVE_MIN_INTERVAL_MS = 5000 minimum interval the claim
asserts for every sequence of mutations. -/
theorem c4_improved_saves_every_apply :
    1001 - 1000 < CFG_SAVE_MIN_INTERVAL_MS ∧
    rapidToggle.savedSnapshots.length = 2 := by
  decide

/-- C9 counterexample: save followed by load does not reproduce a
registry of nine channels — saveConfigToNVS persists at most
MAX_SWITCHES = 8 of them, so the reloaded registry differs from the
original (the ninth channel is gone). -/
theorem c9_nine_switches_roundtrip_fails :
    (loadConfigFromNVS (snapshotOf reg9) fun _ => 1).map (List.map persistOf) ≠
      some (reg9.map persistOf) := by
  decide

/-- C2 (amended): outbound traffic is gated on the WebSocket link, not on
session establishment — while the link is down, sendJson, sendHeartbeat
and sendStateUpdate transmit nothing and queue nothing (heartbeats and
state updates are swallowed, the command queue and registry untouched);
once the link is up, messages are sent regardless of `identified`. -/
theorem sendJson_not_connected (d : Ctx) (hd : d.wsConnected = false)
    (m : OutMsg) : sendJson d m = d := by
  simp [sendJson, hd]

theorem c2_outbound_noop_when_link_down (c : Ctx) (h : c.wsConnected = false)
    (m : OutMsg) (force : Bool) (now : Nat) :
    sendJson c m = c ∧
    (sendHeartbeat c now).sentMessages = c.sentMessages ∧
    (sendStateUpdate c force now).sentMessages = c.sentMessages ∧
    (sendHeartbeat c now).cmdQueue = c.cmdQueue ∧
    (sendStateUpdate c force now).switchesLocal = c.switchesLocal := by
  have hb : ∀ (u : Nat), (sendHeartbeat c u) = c ∨
      (sendHeartbeat c u) = { c with lastHeartbeat := u } := by
    intro u
    simp only [sendHeartbeat]
    split_ifs with h1 h2
    · exact Or.inl rfl
    · exact absurd h2 (by simp [h])
    · exact Or.inr rfl
  have hs : ∀ (f : Bool) (u : Nat), (sendStateUpdate c f u) = { c with pendingState := true } ∨
      (sendStateUpdate c f u) = { c with pendingState := false, lastStateSent := u } := by
    intro f u
    simp only [sendStateUpdate]
    split_ifs with h1
    · exact Or.inl rfl
    · exact Or.inr (by rw [sendJson_not_connected _ (by simp [h]) _])
  refine ⟨sendJson_not_connected c h m, ?_, ?_, ?_, ?_⟩
  · rcases hb now with he | he <;> rw [he]
  · rcases hs force now with he | he <;> rw [he]
  · rcases hb now with he | he <;> rw [he]
  · rcases hs force now with he | he <;> rw [he]

/-- C2 witness: the amended theorem applied to the boot context, whose
link is down. -/
theorem c2_outbound_noop_when_link_down_witness :
    (sendHeartbeat initCtx 99999).sentMessages = initCtx.sentMessages :=
  (c2_outbound_noop_when_link_down initCtx rfl (.heartbeat 0 true) false 99999).2.1

/-- Applying the same (gpio, state) a second time leaves the already
updated registry entry unchanged. -/
theorem applyToFirst_idem (l : List SwitchState) (g : Int) (s : Bool)
    (l' : List SwitchState) (h : applyToFirst l g s = some l') :
    applyToFirst l' g s = some l' := by
  induction l generalizing l' with
  | nil => simp [applyToFirst] at h
  | cons sw rest ih =>
    by_cases hg : sw.gpio = g
    · simp only [applyToFirst, if_pos hg, Option.some.injEq] at h
      subst h
      simp [applyToFirst, hg]
    · simp only [applyToFirst, if_neg hg, Option.map_eq_some'] at h
      obtain ⟨r, hr, rfl⟩ := h
      simp [applyToFirst, hg, ih r hr]

/-- countStateUpdates over an extended log. -/
theorem countStateUpdates_append (ms : List OutMsg) (m : OutMsg) :
    countStateUpdates (ms ++ [m]) =
      countStateUpdates ms + (if m.isStateUpdate then 1 else 0) := by
  simp [countStateUpdates, List.filter_append]
  split_ifs with h <;> simp [h]

/-- Characterization of a successful applySwitchState on a connected
link: registry updated, relay driven, snapshot saved, forced broadcast
transmitted. -/
theorem applySwitchState_out (d : Ctx) (g : Int) (s : Bool) (u : Nat)
    (l' : List SwitchState)
    (hd : applyToFirst d.switchesLocal g s = some l')
    (hc : d.wsConnected = true) :
    (applySwitchState d g s u).1 =
      { d with switchesLocal := l',
               relayWrites := d.relayWrites ++ [(g, s)],
               savedSnapshots := d.savedSnapshots ++ [snapshotOf l'],
               pendingState := false, lastStateSent := u,
               sentMessages := d.sentMessages ++
                 [.stateUpdate u u
                   (l'.map fun sw => (sw.gpio, sw.state, sw.manualOverride))] } := by
  simp [applySwitchState, hd, saveConfigToNVS, sendStateUpdate, sendJson, hc]

/-- C3 (amended): command application broadcasts immediately —
applySwitchState calls sendStateUpdate with force = true, which bypasses
the STATE_DEBOUNCE_MS window, so every successful apply on a connected
link adds exactly one state_update (two rapid applies give two
broadcasts, not one). The debounce window governs only non-forced
sendStateUpdate calls, which inside the window send nothing and set the
pending flag. Applying the same (gpio, state) twice is idempotent on the
registry, and the second relay write repeats the same level, so the
hardware undergoes only one transition. -/
theorem c3_forced_broadcast_and_idempotent_hardware
    (c : Ctx) (g : Int) (s : Bool) (l : List SwitchState) (t t2 : Nat)
    (happly : applyToFirst c.switchesLocal g s = some l)
    (hconn : c.wsConnected = true) :
    countStateUpdates (applySwitchState c g s t).1.sentMessages
      = countStateUpdates c.sentMessages + 1 ∧
    (∀ (d : Ctx) (u : Nat), u - d.lastStateSent < STATE_DEBOUNCE_MS →
      sendStateUpdate d false u = { d with pendingState := true }) ∧
    (applySwitchState (applySwitchState c g s t).1 g s t2).1.switchesLocal
      = (applySwitchState c g s t).1.switchesLocal ∧
    (applySwitchState (applySwitchState c g s t).1 g s t2).1.relayWrites
      = (applySwitchState c g s t).1.relayWrites ++ [(g, s)] := by
  have e1 := applySwitchState_out c g s t l happly hconn
  have hA : (applySwitchState c g s t).1.switchesLocal = l := by rw [e1]
  have hAc : (applySwitchState c g s t).1.wsConnected = true := by
    rw [e1]; exact hconn
  have hap2 : applyToFirst (applySwitchState c g s t).1.switchesLocal g s
      = some l := by
    rw [hA]; exact applyToFirst_idem _ _ _ _ happly
  have e2 := applySwitchState_out ((applySwitchState c g s t).1) g s t2 l hap2 hAc
  refine ⟨?_, ?_, ?_, ?_⟩
  · rw [e1]
    simp [countStateUpdates_append, OutMsg.isStateUpdate]
  · intro d u hu
    simp [sendStateUpdate, hu]
  · rw [e2]; simp [hA]
  · rw [e2]

/-- C3 witness: the amended theorem applied to the connected
single-channel context. -/
theorem c3_forced_broadcast_witness :
    countStateUpdates (applySwitchState rapidCtx 4 true 1000).1.sentMessages
      = countStateUpdates rapidCtx.sentMessages + 1 :=
  (c3_forced_broadcast_and_idempotent_hardware rapidCtx 4 true
    [{ gpio := 4, state := true, defaultState := true }] 1000 1001
    (by decide) rfl).1

/-- Invariant of the rate-limited gateway: the number of accumulated
saves is bounded by the time of the last flush divided by the minimum
interval, and the last flush happened before the horizon `T`. -/
theorem runGateway_inv (T : Nat) (events : List (Nat × Bool)) :
    ∀ (c : Ctx), (∀ e ∈ events, e.1 ≤ T) →
    c.savedSnapshots.length ≤ c.lastCfgSave / CFG_SAVE_MIN_INTERVAL_MS + 1 →
    c.lastCfgSave ≤ T →
    (runGateway c events).savedSnapshots.length ≤
        (runGateway c events).lastCfgSave / CFG_SAVE_MIN_INTERVAL_MS + 1 ∧
      (runGateway c events).lastCfgSave ≤ T := by
  induction events with
  | nil => intro c _ h1 h2; exact ⟨h1, h2⟩
  | cons e rest ih =>
    intro c hT h1 h2
    have heT : e.1 ≤ T := hT e (List.mem_cons_self e rest)
    have hrT : ∀ x ∈ rest, x.1 ≤ T := fun x hx => hT x (List.mem_cons_of_mem e hx)
    have hrun : runGateway c (e :: rest) =
        runGateway (maybeSaveConfig
          (if e.2 then { c with cfgDirty := true } else c) e.1) rest := by
      simp [runGateway]
    rw [hrun]
    set c0 : Ctx := if e.2 then { c with cfgDirty := true } else c with hc0
    have hcs : c0.savedSnapshots = c.savedSnapshots := by
      rw [hc0]; split_ifs <;> rfl
    have hcl : c0.lastCfgSave = c.lastCfgSave := by
      rw [hc0]; split_ifs <;> rfl
    have h1' : c0.savedSnapshots.length ≤
        c0.lastCfgSave / CFG_SAVE_MIN_INTERVAL_MS + 1 := by
      rw [hcs, hcl]; exact h1
    have h2' : c0.lastCfgSave ≤ T := by rw [hcl]; exact h2
    have step : (maybeSaveConfig c0 e.1).savedSnapshots.length ≤
        (maybeSaveConfig c0 e.1).lastCfgSave / CFG_SAVE_MIN_INTERVAL_MS + 1 ∧
        (maybeSaveConfig c0 e.1).lastCfgSave ≤ T := by
      simp only [maybeSaveConfig]
      split_ifs with hd ht
      · exact ⟨h1', h2'⟩
      · exact ⟨h1', h2'⟩
      · have hgap : c0.lastCfgSave + CFG_SAVE_MIN_INTERVAL_MS ≤ e.1 := by
          have hle : CFG_SAVE_MIN_INTERVAL_MS ≤ e.1 - c0.lastCfgSave :=
            le_of_not_lt ht
          rw [show CFG_SAVE_MIN_INTERVAL_MS = 5000 from rfl] at hle ⊢
          omega
        have hdiv : c0.lastCfgSave / CFG_SAVE_MIN_INTERVAL_MS + 1 ≤
            e.1 / CFG_SAVE_MIN_INTERVAL_MS := by
          have h5 : 0 < CFG_SAVE_MIN_INTERVAL_MS := by decide
          calc c0.lastCfgSave / CFG_SAVE_MIN_INTERVAL_MS + 1
              = (c0.lastCfgSave + CFG_SAVE_MIN_INTERVAL_MS) /
                  CFG_SAVE_MIN_INTERVAL_MS := (Nat.add_div_right _ h5).symm
            _ ≤ e.1 / CFG_SAVE_MIN_INTERVAL_MS := Nat.div_le_div_right hgap
        constructor
        · simp only [saveConfigToNVS, List.length_append, List.length_cons,
            List.length_nil]
          have hfin : c0.savedSnapshots.length + 1 ≤
              e.1 / CFG_SAVE_MIN_INTERVAL_MS + 1 :=
            le_trans (Nat.add_le_add_right h1' 1) (Nat.add_le_add_right hdiv 1)
          simpa using hfin
        · simpa using heT
    exact ih _ hrT step.1 step.2

/-- C4 (amended): the rate-limited persistence gateway of
esp32debugtest.cpp flushes only when the dirty flag is set and at least
CFG_SAVE_MIN_INTERVAL_MS has elapsed since the last flush, so over any
run of the main loop — with channel-state mutations marking the
configuration dirty arbitrarily often — the number of durable saves
within a time horizon T is at most T / CFG_SAVE_MIN_INTERVAL_MS + 1.
(The improved_esp32.cpp variant does not route command applications
through this gateway: applySwitchState there saves on every apply, which
is what the counterexample shows.) -/
theorem c4_gateway_rate_limit (T : Nat) (events : List (Nat × Bool)) (c : Ctx)
    (hT : ∀ e ∈ events, e.1 ≤ T) (h0 : c.lastCfgSave = 0)
    (hs : c.savedSnapshots = []) :
    (runGateway c events).savedSnapshots.length ≤
      T / CFG_SAVE_MIN_INTERVAL_MS + 1 ∧
    (∀ (d : Ctx) (u : Nat), d.cfgDirty = false → maybeSaveConfig d u = d) ∧
    (∀ (d : Ctx) (u : Nat), u - d.lastCfgSave < CFG_SAVE_MIN_INTERVAL_MS →
      maybeSaveConfig d u = d) ∧
    (∀ (d : Ctx) (u : Nat), d.cfgDirty = true →
      CFG_SAVE_MIN_INTERVAL_MS ≤ u - d.lastCfgSave →
      maybeSaveConfig d u =
        { saveConfigToNVS d with lastCfgSave := u, cfgDirty := false }) := by
  refine ⟨?_, ?_, ?_, ?_⟩
  · have hinv := runGateway_inv T events c hT
      (by rw [hs, h0]; simp) (by rw [h0]; exact Nat.zero_le T)
    calc (runGateway c events).savedSnapshots.length
        ≤ (runGateway c events).lastCfgSave / CFG_SAVE_MIN_INTERVAL_MS + 1 :=
          hinv.1
      _ ≤ T / CFG_SAVE_MIN_INTERVAL_MS + 1 :=
          Nat.add_le_add_right (Nat.div_le_div_right hinv.2) 1
  · intro d u hd; simp [maybeSaveConfig, hd]
  · intro d u hu
    simp only [maybeSaveConfig]
    split_ifs <;> rfl
  · intro d u hd hu
    simp [maybeSaveConfig, hd, Nat.not_lt.mpr hu]

/-- C4 witness: three mutations at times 0, 1 and 6000 yield at most
6000 / 5000 + 1 = 2 durable saves. -/
theorem c4_gateway_rate_limit_witness :
    (runGateway initCtx [(0, true), (1, true), (6000, true)]).savedSnapshots.length ≤
      6000 / CFG_SAVE_MIN_INTERVAL_MS + 1 :=
  (c4_gateway_rate_limit 6000 [(0, true), (1, true), (6000, true)] initCtx
    (by decide) rfl rfl).1

/-- Effect of enqueueing a burst: the bounded FIFO accepts commands up to
the free capacity, in arrival order, and reports one drop for each
command beyond it. -/
theorem enqueueAll_spec (cmds : List (Int × Bool)) :
    ∀ (c : Ctx) (now : Nat),
    (enqueueAll c cmds now).cmdQueue =
      c.cmdQueue ++ (cmds.take (MAX_COMMAND_QUEUE - c.cmdQueue.length)).map
        (fun gs => { gpio := gs.1, state := gs.2, valid := true,
                     timestamp := now : Command }) ∧
    (enqueueAll c cmds now).droppedCommands =
      c.droppedCommands + (cmds.length - (MAX_COMMAND_QUEUE - c.cmdQueue.length)) := by
  induction cmds with
  | nil => intro c now; simp [enqueueAll]
  | cons gs rest ih =>
    intro c now
    have hstep : enqueueAll c (gs :: rest) now =
        enqueueAll (queueSwitchCommand c gs.1 gs.2 now) rest now := by
      simp [enqueueAll]
    rw [hstep]
    by_cases h : c.cmdQueue.length < MAX_COMMAND_QUEUE
    · have hq : queueSwitchCommand c gs.1 gs.2 now =
          { c with cmdQueue := c.cmdQueue ++
              [{ gpio := gs.1, state := gs.2, valid := true, timestamp := now }] } := by
        simp [queueSwitchCommand, h]
      rw [hq]
      obtain ⟨ih1, ih2⟩ := ih { c with cmdQueue := c.cmdQueue ++
          [{ gpio := gs.1, state := gs.2, valid := true, timestamp := now }] } now
      simp only [List.length_append, List.length_cons, List.length_nil] at ih1 ih2
      constructor
      · rw [ih1]
        have hk : MAX_COMMAND_QUEUE - c.cmdQueue.length =
            (MAX_COMMAND_QUEUE - (c.cmdQueue.length + (0 + 1))) + 1 := by omega
        rw [hk, List.take_succ_cons, List.map_cons, List.append_assoc]
        rfl
      · rw [ih2]
        simp only [List.length_cons]
        omega
    · have hq : queueSwitchCommand c gs.1 gs.2 now =
          { c with droppedCommands := c.droppedCommands + 1 } := by
        simp [queueSwitchCommand, h]
      rw [hq]
      obtain ⟨ih1, ih2⟩ := ih { c with droppedCommands := c.droppedCommands + 1 } now
      have hz : MAX_COMMAND_QUEUE - c.cmdQueue.length = 0 := by omega
      constructor
      · rw [ih1]; simp [hz]
      · rw [ih2]; simp only [List.length_cons, hz]; omega

/-- C5: the command queue has fixed capacity MAX_COMMAND_QUEUE = 16 and
enqueueing (xQueueSend with timeout 0) never blocks; for any burst of 20
commands enqueued into the empty queue, exactly the first 16 occupy the
queue in FIFO arrival order, the 4 newest are dropped and reported, and
the drain step always applies the head of the queue first — so no two
commands (in particular none for the same channel) are ever reordered. -/
theorem c5_queue_capacity_fifo (cmds : List (Int × Bool)) (c : Ctx) (now : Nat)
    (hlen : cmds.length = 20) (hq : c.cmdQueue = []) (hd : c.droppedCommands = 0) :
    (enqueueAll c cmds now).cmdQueue =
      (cmds.take 16).map (fun gs => { gpio := gs.1, state := gs.2, valid := true,
                                      timestamp := now : Command }) ∧
    (enqueueAll c cmds now).cmdQueue.length = 16 ∧
    (enqueueAll c cmds now).droppedCommands = 4 ∧
    (∀ (d : Ctx) (u : Nat) (cmd : Command) (rest : List Command),
      d.cmdQueue = cmd :: rest →
      COMMAND_PROCESS_INTERVAL ≤ u - d.lastCommandProcess →
      cmd.valid = true →
      processCommandQueue d u =
        (applySwitchState { d with lastCommandProcess := u, cmdQueue := rest }
          cmd.gpio cmd.state u).1) := by
  obtain ⟨h1, h2⟩ := enqueueAll_spec cmds c now
  rw [hq] at h1 h2
  simp only [List.length_nil, Nat.sub_zero, List.nil_append] at h1 h2
  have hcap : MAX_COMMAND_QUEUE = 16 := rfl
  refine ⟨by rw [h1, hcap], ?_, ?_, ?_⟩
  · rw [h1, hcap]
    simp [List.length_take, hlen]
  · rw [h2, hd, hlen, hcap]
  · intro d u cmd rest hdq hu hv
    have hnot : ¬(u - d.lastCommandProcess < COMMAND_PROCESS_INTERVAL) :=
      Nat.not_lt.mpr hu
    simp only [processCommandQueue, hnot, if_false, hdq, hv, if_true]

/-- The 20-command burst of Scenario D, on channels 0..19. -/
def cmds20 : List (Int × Bool) := (List.range 20).map fun i => ((i : Int), true)

/-- C5 witness: the theorem applied to the concrete 20-command burst
against the boot context. -/
theorem c5_queue_capacity_fifo_witness :
    (enqueueAll initCtx cmds20 0).droppedCommands = 4 :=
  (c5_queue_capacity_fifo cmds20 initCtx 0 (by decide) rfl rfl).2.2.1

/-- A sample that flips the raw level, or arrives while the debounce
window of the last flip is still open, never commits a stable
transition: a flip resets the window timestamp to `now` (making the
elapsed time 0 < MANUAL_DEBOUNCE_MS), and otherwise the elapsed-time
condition fails outright. -/
theorem manualStep_no_commit (sw : SwitchState) (r : Int) (t : Nat)
    (h : r ≠ sw.lastManualLevel ∨ t - sw.lastManualChangeMs < MANUAL_DEBOUNCE_MS) :
    (manualStep sw r t).2.2 = false := by
  by_cases hg : sw.manualEnabled = false ∨ sw.manualGpio < 0
  · simp [manualStep, hg]
  · by_cases hr : r = sw.lastManualLevel
    · have ht : t - sw.lastManualChangeMs < MANUAL_DEBOUNCE_MS := by
        rcases h with h | h
        · exact absurd hr h
        · exact h
      simp [manualStep, hg, hr, Nat.not_le.mpr ht]
    · simp [manualStep, hg, hr, Nat.sub_self, MANUAL_DEBOUNCE_MS]

/-- A burst trace commits no stable transition at all. -/
theorem manualRun_burst_zero (samples : List (Nat × Int)) :
    ∀ (sw : SwitchState), isBurstTrace sw samples = true →
    (manualRun sw samples).2.2 = 0 := by
  induction samples with
  | nil => intro sw _; simp [manualRun]
  | cons s rest ih =>
    intro sw h
    obtain ⟨t, r⟩ := s
    simp only [isBurstTrace, Bool.and_eq_true, Bool.or_eq_true,
      decide_eq_true_eq] at h
    have hnc := manualStep_no_commit sw r t h.1
    simp [manualRun, hnc, ih _ h.2]

/-- C6: for a manual input, a burst of raw level flips each arriving
faster than MANUAL_DEBOUNCE_MS produces at most one stable transition
(in fact none while the burst lasts); each raw level change restarts the
debounce window by resetting the last-change timestamp; and a level is
committed as stable only when it differs from the current stable level
and has been held unchanged for at least the window. -/
theorem c6_debounce_at_most_one_transition
    (sw : SwitchState) (samples : List (Nat × Int))
    (hen : sw.manualEnabled = true) (hg : 0 ≤ sw.manualGpio)
    (hburst : isBurstTrace sw samples = true) :
    (manualRun sw samples).2.2 ≤ 1 ∧
    (∀ (d : SwitchState) (r : Int) (t : Nat),
      d.manualEnabled = true → 0 ≤ d.manualGpio → r ≠ d.lastManualLevel →
      (manualStep d r t).1.lastManualChangeMs = t ∧
      (manualStep d r t).1.lastManualLevel = r) ∧
    (∀ (d : SwitchState) (r : Int) (t : Nat),
      (manualStep d r t).2.2 = true →
      r ≠ d.stableManualLevel ∧ r = d.lastManualLevel ∧
      MANUAL_DEBOUNCE_MS ≤ t - d.lastManualChangeMs ∧
      (manualStep d r t).1.stableManualLevel = r) := by
  refine ⟨?_, ?_, ?_⟩
  · rw [manualRun_burst_zero samples sw hburst]
    exact Nat.zero_le 1
  · intro d r t hden hdg hr
    have hguard : ¬(d.manualEnabled = false ∨ d.manualGpio < 0) := by
      push_neg
      exact ⟨by simp [hden], hdg⟩
    simp [manualStep, hguard, hr, Nat.sub_self, MANUAL_DEBOUNCE_MS]
  · intro d r t hc
    by_cases hguard : d.manualEnabled = false ∨ d.manualGpio < 0
    · simp [manualStep, hguard] at hc
    · have hr : r = d.lastManualLevel := by
        by_contra hr
        rw [manualStep_no_commit d r t (Or.inl hr)] at hc
        exact Bool.false_ne_true hc
      by_cases hcond : r ≠ d.stableManualLevel ∧
          MANUAL_DEBOUNCE_MS ≤ t - d.lastManualChangeMs
      · refine ⟨hcond.1, hr, hcond.2, ?_⟩
        simp only [manualStep, hguard, if_false, hr]
        simp only [if_neg (by simp : ¬(d.lastManualLevel ≠ d.lastManualLevel))]
        rw [if_pos (hr ▸ hcond : d.lastManualLevel ≠ d.stableManualLevel ∧
          MANUAL_DEBOUNCE_MS ≤ t - d.lastManualChangeMs)]
        split_ifs <;> rfl
      · exfalso
        have : (manualStep d r t).2.2 = false := by
          simp only [manualStep, hguard, if_false, hr]
          simp only [if_neg (by simp : ¬(d.lastManualLevel ≠ d.lastManualLevel))]
          rw [if_neg (fun hx => hcond (hr ▸ hx))]
        rw [this] at hc
        exact Bool.false_ne_true hc

/-- A manual input used in the C6 and C7 witnesses: enabled momentary
active-low input on pin 25 for the relay on GPIO 4, stable at HIGH. -/
def manualSw : SwitchState :=
  { gpio := 4, state := false, manualGpio := 25, manualEnabled := true,
    manualActiveLow := true, manualMomentary := true,
    lastManualLevel := 1, stableManualLevel := 1, lastManualActive := false }

/-- C6 witness: a burst of three flips (LOW at 5, HIGH at 10, LOW at 15)
on the manual input yields at most one stable transition. -/
theorem c6_debounce_at_most_one_transition_witness :
    (manualRun manualSw [(5, 0), (10, 1), (15, 0)]).2.2 ≤ 1 :=
  (c6_debounce_at_most_one_transition manualSw [(5, 0), (10, 1), (15, 0)]
    rfl (by decide) (by decide)).1

/-- C7: on a debounced stable transition (the raw level has settled, it
differs from the current stable level, and the window has elapsed): in
momentary mode a command is produced exactly on the rising edge into
active and it toggles the channel state; in maintained mode a command is
produced exactly when the debounced active level differs from the
channel state and it sets the state to that level; and whenever a
command is produced the channel's manualOverride flag is set. -/
theorem c7_manual_mode_semantics (sw : SwitchState) (r : Int) (t : Nat)
    (hen : sw.manualEnabled = true) (hg : 0 ≤ sw.manualGpio)
    (hstable : r ≠ sw.stableManualLevel) (hraw : r = sw.lastManualLevel)
    (hheld : MANUAL_DEBOUNCE_MS ≤ t - sw.lastManualChangeMs) :
    (sw.manualMomentary = true →
      (manualStep sw r t).2.1 =
        if manualActiveOf sw.manualActiveLow r && !sw.lastManualActive
        then some (sw.gpio, !sw.state) else none) ∧
    (sw.manualMomentary = false →
      (manualStep sw r t).2.1 =
        if manualActiveOf sw.manualActiveLow r != sw.state
        then some (sw.gpio, manualActiveOf sw.manualActiveLow r) else none) ∧
    ((manualStep sw r t).2.1 ≠ none →
      (manualStep sw r t).1.manualOverride = true) ∧
    (manualStep sw r t).2.2 = true := by
  have hguard : ¬(sw.manualEnabled = false ∨ sw.manualGpio < 0) := by
    push_neg
    exact ⟨by simp [hen], hg⟩
  have hstep : manualStep sw r t =
      (let sw2 := { sw with stableManualLevel := r }
      let active : Bool := manualActiveOf sw.manualActiveLow r
      if sw2.manualMomentary then
        if active && !sw2.lastManualActive then
          ({ sw2 with manualOverride := true, lastManualActive := active },
            some (sw2.gpio, !sw2.state), true)
        else ({ sw2 with lastManualActive := active }, none, true)
      else
        if active != sw2.state then
          ({ sw2 with manualOverride := true, lastManualActive := active },
            some (sw2.gpio, active), true)
        else ({ sw2 with lastManualActive := active }, none, true)) := by
    simp only [manualStep, hguard, if_false, hraw]
    simp only [if_neg (by simp : ¬(sw.lastManualLevel ≠ sw.lastManualLevel))]
    rw [if_pos (hraw ▸ ⟨hstable, hheld⟩ : sw.lastManualLevel ≠ sw.stableManualLevel ∧
      MANUAL_DEBOUNCE_MS ≤ t - sw.lastManualChangeMs)]
  rw [hstep]
  refine ⟨?_, ?_, ?_, ?_⟩ <;>
    simp only [] <;> split_ifs with h1 h2 <;> simp_all

/-- A momentary manual input mid-transition for the C7 witness: the raw
level has settled at LOW (active) while the stable level is still HIGH. -/
def c7Sw : SwitchState :=
  { gpio := 4, state := false, manualGpio := 25, manualEnabled := true,
    manualActiveLow := true, manualMomentary := true,
    lastManualLevel := 0, stableManualLevel := 1, lastManualChangeMs := 0,
    lastManualActive := false }

/-- C7 witness: the theorem applied at the rising edge into active, where
a command is emitted and therefore the override flag is set. -/
theorem c7_manual_mode_semantics_witness :
    (manualStep c7Sw 0 50).1.manualOverride = true :=
  (c7_manual_mode_semantics c7Sw 0 50 rfl (by decide) (by decide) (by decide)
    (by decide)).2.2.1 (by decide)

/-- The persistence gateway never touches the sequence tracker. -/
theorem maybeSaveConfig_lastSeqs (d : Ctx) (u : Nat) :
    (maybeSaveConfig d u).lastSeqs = d.lastSeqs := by
  simp only [maybeSaveConfig]
  split_ifs <;> simp [saveConfigToNVS]

/-- Replacing the configuration from a JSON payload never touches the
sequence tracker (it is cleared separately by the message handler). -/
theorem loadConfigFromJsonArrayC_lastSeqs (d : Ctx) (arr : List JsonSwitch)
    (inputRead : Int → Int) (u : Nat) :
    (loadConfigFromJsonArrayC d arr inputRead u).lastSeqs = d.lastSeqs := by
  simp only [loadConfigFromJsonArrayC, saveConfigToNVS, sendStateUpdate, sendJson]
  split_ifs <;> rfl

/-- C8: on the session-drop edge (WStype_DISCONNECTED while WiFi-linked,
esp32debugtest.cpp variant) the sequence tracker is left untouched and
persistence is marked dirty (either the dirty flag survives the handler
or the flush it triggered has already written a snapshot); the tracker
is cleared exactly by a fresh `identified` message; and immediately
after re-identification a switch_command carrying a previously-stale
sequence number (q at most the old recorded value) is accepted into the
command queue. -/
theorem c8_session_drop_and_reidentify (c : Ctx) (now now2 : Nat)
    (inputRead : Int → Int) (g q : Int) (s : Bool)
    (hstale : q ≤ getLastSeq c.lastSeqs g)
    (hq : c.cmdQueue.length < MAX_COMMAND_QUEUE) :
    (onWsDisconnectedDT c now).lastSeqs = c.lastSeqs ∧
    ((onWsDisconnectedDT c now).cfgDirty = true ∨
      (onWsDisconnectedDT c now).savedSnapshots.length
        = c.savedSnapshots.length + 1) ∧
    (∀ (sws : Option (List JsonSwitch)),
      (onWsIdentified c sws inputRead now).lastSeqs = []) ∧
    (handleSwitchCommand (onWsIdentified c none inputRead now)
        { gpio := some g, state := some s, seq := some q } now2).cmdQueue
      = c.cmdQueue ++ [{ gpio := g, state := s, valid := true, timestamp := now2 }] := by
  refine ⟨?_, ?_, ?_, ?_⟩
  · rw [onWsDisconnectedDT, maybeSaveConfig_lastSeqs]
  · rw [onWsDisconnectedDT]
    simp only [maybeSaveConfig]
    split_ifs
    all_goals first
      | exact Or.inl rfl
      | exact Or.inr (by simp [saveConfigToNVS])
  · intro sws
    cases sws with
    | none => rfl
    | some arr => rw [onWsIdentified, loadConfigFromJsonArrayC_lastSeqs]
  · have hgpio : cmdGpio { gpio := some g, state := some s, seq := some q } = g := rfl
    simp [handleSwitchCommand, onWsIdentified, queueSwitchCommand, hgpio, hq]

/-- C8 witness: the theorem applied to the context whose tracker records
sequence 10 for GPIO 4, with the previously-stale sequence 5. -/
theorem c8_session_drop_and_reidentify_witness :
    (handleSwitchCommand (onWsIdentified staleCtx none (fun _ => 1) 0)
        { gpio := some 4, state := some true, seq := some 5 } 7).cmdQueue
      = staleCtx.cmdQueue ++
        [{ gpio := 4, state := true, valid := true, timestamp := 7 }] :=
  (c8_session_drop_and_reidentify staleCtx 0 7 (fun _ => 1) 4 5 true
    (by decide) (by decide)).2.2.2

/-- Reloading a persisted record restores exactly its persisted fields
(the re-initialised runtime fields are not persisted). -/
theorem persistOf_switchOfPersisted (p : PersistedSwitch) (inputRead : Int → Int) :
    persistOf (switchOfPersisted p inputRead) = p := by
  cases p
  simp only [switchOfPersisted]
  split_ifs <;> rfl

/-- Reading a list back index by index with any defaults reproduces it. -/
theorem range_map_getD {α : Type} (l : List α) (d : Nat → α) :
    (List.range l.length).map (fun i => l.getD i (d i)) = l := by
  apply List.ext_getElem
  · simp
  · intro i h1 h2
    simp only [List.getElem_map, List.getElem_range]
    rw [List.getD_eq_getElem l (d i) h2]

/-- C9 (amended): saveConfigToNVS followed by loadConfigFromNVS
reproduces the Channel Registry — same gpio ids, logical states, default
states, names, override flags and manual configurations — for every
registry holding between 1 and MAX_SWITCHES = 8 channels with
non-negative GPIOs (every registry the firmware actually builds);
registries with more than 8 channels are truncated by the save cap, as
the counterexample shows. -/
theorem c9_roundtrip_within_capacity (reg : List SwitchState)
    (inputRead : Int → Int)
    (h1 : 1 ≤ reg.length) (h8 : reg.length ≤ MAX_SWITCHES)
    (hg : ∀ sw ∈ reg, 0 ≤ sw.gpio) :
    (loadConfigFromNVS (snapshotOf reg) inputRead).map (List.map persistOf)
      = some (reg.map persistOf) := by
  have hmin : min reg.length MAX_SWITCHES = reg.length := min_eq_left h8
  have hcount : (snapshotOf reg).count = reg.length := by
    simp [snapshotOf, hmin]
  have hentries : (snapshotOf reg).entries = reg.map persistOf := by
    simp [snapshotOf, hmin, List.take_length]
  have hcond : ¬((snapshotOf reg).count = 0 ∨
      MAX_SWITCHES < (snapshotOf reg).count) := by
    rw [hcount]
    push_neg
    exact ⟨by omega, h8⟩
  rw [loadConfigFromNVS, if_neg hcond, hcount, hentries]
  have hrange : (List.range reg.length).map
      (fun i => (reg.map persistOf).getD i (nvsDefaultAt i))
      = reg.map persistOf := by
    have hlen : reg.length = (reg.map persistOf).length := by simp
    rw [hlen]
    exact range_map_getD (reg.map persistOf) nvsDefaultAt
  rw [hrange]
  have hfilter : (reg.map persistOf).filter (fun p => 0 ≤ p.gpio)
      = reg.map persistOf := by
    rw [List.filter_eq_self]
    intro p hp
    obtain ⟨x, hx, rfl⟩ := List.mem_map.mp hp
    exact decide_eq_true (hg x hx)
  rw [hfilter]
  simp [List.map_map, Function.comp, persistOf_switchOfPersisted]

/-- A one-channel registry for the C9 witness. -/
def reg1 : List SwitchState := [{ gpio := 4, state := true, defaultState := true }]

/-- C9 witness: the round trip on a one-channel registry. -/
theorem c9_roundtrip_within_capacity_witness :
    (loadConfigFromNVS (snapshotOf reg1) (fun _ => 1)).map (List.map persistOf)
      = some (reg1.map persistOf) :=
  c9_roundtrip_within_capacity reg1 (fun _ => 1) (by decide) (by decide)
    (by decide)

/-- C10: saveConfigToNVS persists at most MAX_SWITCHES = 8 channels — it
writes count = min(size, 8) and exactly the first 8 channels' records —
while loadConfigFromJsonArray builds a registry with one entry per valid
JSON object, with no cap; so for every registry with more than 8
channels, the channels beyond the first 8 are absent from the durable
snapshot. -/
theorem c10_save_caps_at_eight_load_uncapped (reg : List SwitchState)
    (h : MAX_SWITCHES < reg.length) :
    (snapshotOf reg).count = min reg.length MAX_SWITCHES ∧
    (snapshotOf reg).entries = (reg.take MAX_SWITCHES).map persistOf ∧
    (snapshotOf reg).entries.length = MAX_SWITCHES ∧
    (snapshotOf reg).entries.length < reg.length ∧
    (∀ (arr : List JsonSwitch) (inputRead : Int → Int),
      (∀ o ∈ arr, 0 ≤ jsonGpio o) →
      (loadSwitchesFromJsonArray arr inputRead).length = arr.length) := by
  have hmin : min reg.length MAX_SWITCHES = MAX_SWITCHES :=
    min_eq_right (le_of_lt h)
  have hlen : (snapshotOf reg).entries.length = MAX_SWITCHES := by
    simp only [snapshotOf, hmin, List.length_map, List.length_take]
    exact min_eq_left (le_of_lt h)
  refine ⟨rfl, ?_, hlen, ?_, ?_⟩
  · simp [snapshotOf, hmin]
  · rw [hlen]; exact h
  · intro arr inputRead hall
    rw [loadSwitchesFromJsonArray, List.length_map, List.filter_eq_self.mpr]
    intro o ho
    exact decide_eq_true (hall o ho)

/-- C10 witness: the nine-channel registry loses its ninth channel in the
snapshot. -/
theorem c10_save_caps_at_eight_load_uncapped_witness :
    (snapshotOf reg9).entries.length < reg9.length :=
  (c10_save_caps_at_eight_load_uncapped reg9 (by decide)).2.2.2.1

end IotFirmware
